import Mathlib

/-!
Verification of the ULEAM admission system core
(score calculator, segment classifier, seat/eligibility validator).

Shallow embedding of:
  app/models/PuntajePostulacion.py
  app/models/PoliticaAccionAfirmativa.py
  app/models/Asignacion.py

Python floats are modelled as exact rationals; Python `round(x, 2)`
is modelled as rounding `x * 100` to the nearest integer (half up)
and dividing by 100.  Python dicts keyed by ints are modelled as
functions `Int → Option Int` (None = key absent, as `dict.get` sees it).
-/

/-! ## Score calculator — CalculadorPuntajePostulacion -/

def PESO_NOTA_GRADO : ℚ := 0.30

def PESO_EVALUACION : ℚ := 0.50

def PESO_MERITO : ℚ := 0.20

def PUNTAJE_MAXIMO : ℚ := 1000

def FACTOR_NORMALIZACION_NOTA : ℚ := 100

/-- Model of Python `round(x, 2)` over exact rationals. -/
def roundTo2 (x : ℚ) : ℚ := (round (x * 100) : ℚ) / 100

/-- `CalculadorPuntajePostulacion.calcular_puntaje_total`
(PuntajePostulacion.py lines 68-87): normalize the grade,
weight the three components, sum, clamp at the maximum, round to 2 dp. -/
def calcular_puntaje_total (nota_grado puntaje_evaluacion puntaje_meritos : ℚ) : ℚ :=
  let puntaje_grado_normalizado := nota_grado * FACTOR_NORMALIZACION_NOTA
  let componente_grado := puntaje_grado_normalizado * PESO_NOTA_GRADO
  let componente_evaluacion := puntaje_evaluacion * PESO_EVALUACION
  let componente_meritos := puntaje_meritos * PESO_MERITO
  let puntaje_total := componente_grado + componente_evaluacion + componente_meritos
  roundTo2 (min puntaje_total PUNTAJE_MAXIMO)

/-- The claim's formula, written from the spec's words:
round(min(priorGrade*100*0.30 + evaluationScore*0.50 + meritBonus*0.20, 1000), 2). -/
def computeFinalScoreSpec (priorGrade evaluationScore meritBonus : ℚ) : ℚ :=
  roundTo2 (min (priorGrade * 100 * (30/100) + evaluationScore * (50/100)
    + meritBonus * (20/100)) 1000)

/-! Helper lemmas about `roundTo2`. -/

lemma roundTo2_mono {a b : ℚ} (h : a ≤ b) : roundTo2 a ≤ roundTo2 b := by
  unfold roundTo2
  have h2 : round (a * 100) ≤ round (b * 100) := by
    rw [round_eq, round_eq]
    exact Int.floor_le_floor (by linarith)
  have h3 : ((round (a * 100) : ℤ) : ℚ) ≤ ((round (b * 100) : ℤ) : ℚ) := by
    exact_mod_cast h2
  linarith

lemma roundTo2_intMul (n : ℤ) : roundTo2 ((n : ℚ)) = n := by
  unfold roundTo2
  have : ((n : ℚ)) * 100 = ((n * 100 : ℤ) : ℚ) := by push_cast; ring
  rw [this, round_intCast]
  push_cast
  ring

lemma roundTo2_zero : roundTo2 0 = 0 := by
  have := roundTo2_intMul 0
  simpa using this

lemma roundTo2_thousand : roundTo2 1000 = 1000 := by
  have := roundTo2_intMul 1000
  simpa using this

/-- C1: for in-range inputs, `calcular_puntaje_total` computes exactly the
spec formula round(min(g*100*0.30 + e*0.50 + m*0.20, 1000), 2), and the three
quoted values hold: (9.5, 850, 200) ↦ 750, (10, 1000, 1000) ↦ 1000,
(0, 0, 0) ↦ 0. -/
theorem score_formula_matches_spec (g e m : ℚ)
    (hg0 : 0 ≤ g) (hg1 : g ≤ 10) (he0 : 0 ≤ e) (he1 : e ≤ 1000)
    (hm0 : 0 ≤ m) (hm1 : m ≤ 1000) :
    calcular_puntaje_total g e m = computeFinalScoreSpec g e m ∧
    calcular_puntaje_total 9.5 850 200 = 750 ∧
    calcular_puntaje_total 10 1000 1000 = 1000 ∧
    calcular_puntaje_total 0 0 0 = 0 := by
  refine ⟨?_, ?_, ?_, ?_⟩
  · unfold calcular_puntaje_total computeFinalScoreSpec
      PESO_NOTA_GRADO PESO_EVALUACION PESO_MERITO PUNTAJE_MAXIMO
      FACTOR_NORMALIZACION_NOTA
    norm_num
  · norm_num [calcular_puntaje_total, PESO_NOTA_GRADO, PESO_EVALUACION,
      PESO_MERITO, PUNTAJE_MAXIMO, FACTOR_NORMALIZACION_NOTA, roundTo2, round_eq]
  · norm_num [calcular_puntaje_total, PESO_NOTA_GRADO, PESO_EVALUACION,
      PESO_MERITO, PUNTAJE_MAXIMO, FACTOR_NORMALIZACION_NOTA, roundTo2, round_eq]
  · norm_num [calcular_puntaje_total, PESO_NOTA_GRADO, PESO_EVALUACION,
      PESO_MERITO, PUNTAJE_MAXIMO, FACTOR_NORMALIZACION_NOTA, roundTo2, round_eq]

/-- Witness for C1 at (9.5, 850, 200). -/
theorem score_formula_matches_spec_witness :
    calcular_puntaje_total 9.5 850 200 = computeFinalScoreSpec 9.5 850 200 :=
  (score_formula_matches_spec 9.5 850 200 (by norm_num) (by norm_num)
    (by norm_num) (by norm_num) (by norm_num) (by norm_num)).1

lemma calcular_le_calcular {a b : ℚ} (h : a ≤ b) :
    roundTo2 (min a PUNTAJE_MAXIMO) ≤ roundTo2 (min b PUNTAJE_MAXIMO) :=
  roundTo2_mono (min_le_min h le_rfl)

/-- C2: for in-range inputs the final score lies in [0, 1000], and
`calcular_puntaje_total` is monotonically non-decreasing in each of its
three arguments independently. -/
theorem score_bounded_and_monotone (g e m : ℚ)
    (hg0 : 0 ≤ g) (hg1 : g ≤ 10) (he0 : 0 ≤ e) (he1 : e ≤ 1000)
    (hm0 : 0 ≤ m) (hm1 : m ≤ 1000) :
    (0 ≤ calcular_puntaje_total g e m ∧ calcular_puntaje_total g e m ≤ 1000) ∧
    (∀ g1, g ≤ g1 → g1 ≤ 10 →
      calcular_puntaje_total g e m ≤ calcular_puntaje_total g1 e m) ∧
    (∀ e1, e ≤ e1 → e1 ≤ 1000 →
      calcular_puntaje_total g e m ≤ calcular_puntaje_total g e1 m) ∧
    (∀ m1, m ≤ m1 → m1 ≤ 1000 →
      calcular_puntaje_total g e m ≤ calcular_puntaje_total g e m1) := by
  have hsum : (0:ℚ) ≤ g * FACTOR_NORMALIZACION_NOTA * PESO_NOTA_GRADO
      + e * PESO_EVALUACION + m * PESO_MERITO := by
    unfold FACTOR_NORMALIZACION_NOTA PESO_NOTA_GRADO PESO_EVALUACION PESO_MERITO
    nlinarith
  refine ⟨⟨?_, ?_⟩, ?_, ?_, ?_⟩
  · calc (0:ℚ) = roundTo2 0 := roundTo2_zero.symm
    _ ≤ _ := by
        unfold calcular_puntaje_total
        exact roundTo2_mono (le_min hsum (by unfold PUNTAJE_MAXIMO; norm_num))
  · calc calcular_puntaje_total g e m
        ≤ roundTo2 PUNTAJE_MAXIMO := by
          unfold calcular_puntaje_total
          exact roundTo2_mono (min_le_right _ _)
    _ = 1000 := by unfold PUNTAJE_MAXIMO; exact roundTo2_thousand
  · intro g1 hle _
    unfold calcular_puntaje_total
    refine calcular_le_calcular ?_
    unfold FACTOR_NORMALIZACION_NOTA PESO_NOTA_GRADO
    nlinarith
  · intro e1 hle _
    unfold calcular_puntaje_total
    refine calcular_le_calcular ?_
    unfold PESO_EVALUACION
    nlinarith
  · intro m1 hle _
    unfold calcular_puntaje_total
    refine calcular_le_calcular ?_
    unfold PESO_MERITO
    nlinarith

/-- Witness for C2 at (8, 700, 100). -/
theorem score_bounded_and_monotone_witness :
    0 ≤ calcular_puntaje_total 8 700 100 ∧ calcular_puntaje_total 8 700 100 ≤ 1000 :=
  (score_bounded_and_monotone 8 700 100 (by norm_num) (by norm_num)
    (by norm_num) (by norm_num) (by norm_num) (by norm_num)).1

/-! ## Validation and the PuntajePostulacion object — ValidadorNotasPuntaje,
PuntajePostulacion (PuntajePostulacion.py lines 32-51, 159-247). -/

def NOTA_MINIMA : ℚ := 0.0

def NOTA_MAXIMA : ℚ := 10.0

def PUNTAJE_MINIMO : ℚ := 0.0

def PUNTAJE_MAXIMO_NOTAS : ℚ := 1000.0

/-- `ValidadorNotasPuntaje.validar_nota_grado`: raises ValueError when
the grade is out of [0, 10]. -/
def validar_nota_grado (nota : ℚ) : Except String Unit :=
  if NOTA_MINIMA ≤ nota ∧ nota ≤ NOTA_MAXIMA then Except.ok ()
  else Except.error "La nota de grado debe estar entre 0.0 y 10.0"

/-- `ValidadorNotasPuntaje.validar_puntaje`: raises ValueError when the
score is out of [0, 1000]; the message names the score kind (`tipo`). -/
def validar_puntaje (puntaje : ℚ) (tipo : String) : Except String Unit :=
  if PUNTAJE_MINIMO ≤ puntaje ∧ puntaje ≤ PUNTAJE_MAXIMO_NOTAS then Except.ok ()
  else Except.error ("El puntaje de " ++ tipo ++ " debe estar entre 0.0 y 1000.0")

/-- The observable fields of a `PuntajePostulacion` object. -/
structure PuntajePostulacion where
  id_puntaje : Nat
  id_postulante : Int
  cedula_postulante : String
  nota_grado : ℚ
  puntaje_evaluacion : ℚ
  puntaje_meritos : ℚ
  puntaje_final : ℚ
deriving DecidableEq

/-- `PuntajePostulacion.__init__` (lines 173-211), with the class-level
counter `_contador_puntajes` passed as explicit state.  The source
increments the counter FIRST (line 183) and only then validates the three
inputs (lines 195-197); a ValueError propagates with the counter already
advanced.  The returned pair is (new counter value, constructed object or
error). -/
def puntajePostulacionInit (contador : Nat) (id_postulante : Int)
    (nota_grado puntaje_evaluacion : ℚ) (cedula_postulante : String)
    (puntaje_meritos : ℚ) : Nat × Except String PuntajePostulacion :=
  let contador := contador + 1
  match validar_nota_grado nota_grado with
  | Except.error e => (contador, Except.error e)
  | Except.ok _ =>
  match validar_puntaje puntaje_evaluacion "evaluación" with
  | Except.error e => (contador, Except.error e)
  | Except.ok _ =>
  match validar_puntaje puntaje_meritos "méritos" with
  | Except.error e => (contador, Except.error e)
  | Except.ok _ =>
    (contador, Except.ok
      { id_puntaje := contador
        id_postulante := id_postulante
        cedula_postulante := cedula_postulante
        nota_grado := nota_grado
        puntaje_evaluacion := puntaje_evaluacion
        puntaje_meritos := puntaje_meritos
        puntaje_final :=
          calcular_puntaje_total nota_grado puntaje_evaluacion puntaje_meritos })

/-- The `puntaje_meritos` setter (lines 234-247): validates the new value
first; only on success mutates the merit field and recomputes the final
score.  On failure the object is untouched. -/
def setPuntajeMeritos (p : PuntajePostulacion) (valor : ℚ) :
    Except String PuntajePostulacion :=
  match validar_puntaje valor "méritos" with
  | Except.error e => Except.error e
  | Except.ok _ => Except.ok
      { p with puntaje_meritos := valor
               puntaje_final :=
                 calcular_puntaje_total p.nota_grado p.puntaje_evaluacion valor }

/-- C3 counterexample: constructing with the repository's own invalid
example (nota_grado = 11.5, the other inputs in range) starting from
counter 0 does raise a validation error, but the class counter has
already been advanced to 1 — so "no counter is advanced" fails. -/
theorem init_failure_advances_counter :
    (puntajePostulacionInit 0 4 11.5 800 "1370345678" 0).2 =
      Except.error "La nota de grado debe estar entre 0.0 y 10.0" ∧
    (puntajePostulacionInit 0 4 11.5 800 "1370345678" 0).1 = 1 ∧ (1 : Nat) ≠ 0 := by
  refine ⟨?_, ?_, by norm_num⟩ <;>
    norm_num [puntajePostulacionInit, validar_nota_grado, NOTA_MINIMA, NOTA_MAXIMA]

lemma init_fail_nota {contador : Nat} {idp : Int} {g e m : ℚ} {ced : String}
    (hg : ¬(0 ≤ g ∧ g ≤ 10)) :
    puntajePostulacionInit contador idp g e ced m =
      (contador + 1, Except.error "La nota de grado debe estar entre 0.0 y 10.0") := by
  have : ¬(NOTA_MINIMA ≤ g ∧ g ≤ NOTA_MAXIMA) := by
    unfold NOTA_MINIMA NOTA_MAXIMA; norm_num at hg ⊢; intro h0; exact hg h0
  simp [puntajePostulacionInit, validar_nota_grado, this]

lemma init_fail_eval {contador : Nat} {idp : Int} {g e m : ℚ} {ced : String}
    (hg : 0 ≤ g ∧ g ≤ 10) (he : ¬(0 ≤ e ∧ e ≤ 1000)) :
    puntajePostulacionInit contador idp g e ced m =
      (contador + 1,
       Except.error "El puntaje de evaluación debe estar entre 0.0 y 1000.0") := by
  have h1 : NOTA_MINIMA ≤ g ∧ g ≤ NOTA_MAXIMA := by
    unfold NOTA_MINIMA NOTA_MAXIMA; norm_num; exact hg
  have h2 : ¬(PUNTAJE_MINIMO ≤ e ∧ e ≤ PUNTAJE_MAXIMO_NOTAS) := by
    unfold PUNTAJE_MINIMO PUNTAJE_MAXIMO_NOTAS; norm_num at he ⊢; intro h0; exact he h0
  simp [puntajePostulacionInit, validar_nota_grado, validar_puntaje, h1, h2]

lemma init_fail_meritos {contador : Nat} {idp : Int} {g e m : ℚ} {ced : String}
    (hg : 0 ≤ g ∧ g ≤ 10) (he : 0 ≤ e ∧ e ≤ 1000) (hm : ¬(0 ≤ m ∧ m ≤ 1000)) :
    puntajePostulacionInit contador idp g e ced m =
      (contador + 1,
       Except.error "El puntaje de méritos debe estar entre 0.0 y 1000.0") := by
  have h1 : NOTA_MINIMA ≤ g ∧ g ≤ NOTA_MAXIMA := by
    unfold NOTA_MINIMA NOTA_MAXIMA; norm_num; exact hg
  have h2 : PUNTAJE_MINIMO ≤ e ∧ e ≤ PUNTAJE_MAXIMO_NOTAS := by
    unfold PUNTAJE_MINIMO PUNTAJE_MAXIMO_NOTAS; norm_num; exact he
  have h3 : ¬(PUNTAJE_MINIMO ≤ m ∧ m ≤ PUNTAJE_MAXIMO_NOTAS) := by
    unfold PUNTAJE_MINIMO PUNTAJE_MAXIMO_NOTAS; norm_num at hm ⊢; intro h0; exact hm h0
  simp [puntajePostulacionInit, validar_nota_grado, validar_puntaje, h1, h2, h3]

/-- C3 amended: any out-of-range input to the constructor fails with the
ValueError naming exactly the offending field — the first out-of-range
field in the source's validation order (grade, then evaluation, then
merits) — and no score object is produced; the merit setter rejects an
out-of-range value leaving the object untouched; HOWEVER the class-level
counter is incremented before validation, so on a failed construction it
has already advanced by one. -/
theorem init_validation_no_object_but_counter_advances
    (contador : Nat) (idp : Int) (g e m : ℚ) (ced : String)
    (h : ¬(0 ≤ g ∧ g ≤ 10) ∨ ¬(0 ≤ e ∧ e ≤ 1000) ∨ ¬(0 ≤ m ∧ m ≤ 1000)) :
    (¬(0 ≤ g ∧ g ≤ 10) →
      puntajePostulacionInit contador idp g e ced m =
        (contador + 1,
         Except.error "La nota de grado debe estar entre 0.0 y 10.0")) ∧
    ((0 ≤ g ∧ g ≤ 10) → ¬(0 ≤ e ∧ e ≤ 1000) →
      puntajePostulacionInit contador idp g e ced m =
        (contador + 1,
         Except.error "El puntaje de evaluación debe estar entre 0.0 y 1000.0")) ∧
    ((0 ≤ g ∧ g ≤ 10) → (0 ≤ e ∧ e ≤ 1000) → ¬(0 ≤ m ∧ m ≤ 1000) →
      puntajePostulacionInit contador idp g e ced m =
        (contador + 1,
         Except.error "El puntaje de méritos debe estar entre 0.0 y 1000.0")) ∧
    (∃ msg, (puntajePostulacionInit contador idp g e ced m).2 = Except.error msg) ∧
    (puntajePostulacionInit contador idp g e ced m).1 = contador + 1 ∧
    (∀ p v, ¬(0 ≤ v ∧ v ≤ 1000) →
      setPuntajeMeritos p v =
        Except.error "El puntaje de méritos debe estar entre 0.0 y 1000.0") := by
  have hset : ∀ p v, ¬((0:ℚ) ≤ v ∧ v ≤ 1000) →
      setPuntajeMeritos p v =
        Except.error "El puntaje de méritos debe estar entre 0.0 y 1000.0" := by
    intro p v hv
    have h3 : ¬(PUNTAJE_MINIMO ≤ v ∧ v ≤ PUNTAJE_MAXIMO_NOTAS) := by
      unfold PUNTAJE_MINIMO PUNTAJE_MAXIMO_NOTAS
      norm_num at hv ⊢; intro h0; exact hv h0
    simp [setPuntajeMeritos, validar_puntaje, h3]
  refine ⟨fun hg => init_fail_nota hg,
    fun hg he => init_fail_eval hg he,
    fun hg he hm => init_fail_meritos hg he hm, ?_, ?_, hset⟩
  · by_cases hg : 0 ≤ g ∧ g ≤ 10
    · by_cases he : 0 ≤ e ∧ e ≤ 1000
      · have hm : ¬(0 ≤ m ∧ m ≤ 1000) := by tauto
        rw [init_fail_meritos hg he hm]
        exact ⟨_, rfl⟩
      · rw [init_fail_eval hg he]
        exact ⟨_, rfl⟩
    · rw [init_fail_nota hg]
      exact ⟨_, rfl⟩
  · by_cases hg : 0 ≤ g ∧ g ≤ 10
    · by_cases he : 0 ≤ e ∧ e ≤ 1000
      · have hm : ¬(0 ≤ m ∧ m ≤ 1000) := by tauto
        rw [init_fail_meritos hg he hm]
      · rw [init_fail_eval hg he]
    · rw [init_fail_nota hg]

/-- Witness for the amended C3 at the repository's example 4 input: the
out-of-range grade 11.5 yields exactly the grade message, with the
counter advanced. -/
theorem init_validation_witness :
    puntajePostulacionInit 0 4 11.5 800 "1370345678" 0 =
      (0 + 1, Except.error "La nota de grado debe estar entre 0.0 y 10.0") :=
  (init_validation_no_object_but_counter_advances 0 4 11.5 800 0 "1370345678"
    (Or.inl (by norm_num))).1 (by norm_num)

/-! ## Segment classifier — CalculadorSegmento
(PoliticaAccionAfirmativa.py lines 89-143). -/

/-- The marker dict built in `PoliticaAccionAfirmativa.__init__`
(lines 184-196); each key holds the string 'SI' or 'NO'. -/
structure Marcadores where
  condicion_socioeconomica : String
  ruralidad : String
  discapacidad : String
  pueblos_nacionalidades : String
  victima_violencia : String
  migrantes_retornados : String
  merito_academico : String
  vulnerabilidad_socioeconomica : String
  bachiller_pueblos_nacionalidad : String
  bachiller_periodo_academico : String
  poblacion_general : String
deriving DecidableEq

/-- `CalculadorSegmento._tiene_cuotas` (lines 133-143): any of the six
quota conditions marked 'SI'. -/
def tiene_cuotas (m : Marcadores) : Bool :=
  m.condicion_socioeconomica == "SI" ||
  m.ruralidad == "SI" ||
  m.discapacidad == "SI" ||
  m.pueblos_nacionalidades == "SI" ||
  m.victima_violencia == "SI" ||
  m.migrantes_retornados == "SI"

/-- `CalculadorSegmento.calcular` (lines 105-131): first match wins. -/
def calcularSegmento (m : Marcadores) : String × Int :=
  if tiene_cuotas m then ("CUOTAS", 1)
  else if m.vulnerabilidad_socioeconomica == "SI" then ("VULNERABILIDAD", 2)
  else if m.merito_academico == "SI" then ("MERITO_ACADEMICO", 3)
  else if m.bachiller_pueblos_nacionalidad == "SI" then ("PUEBLOS_NACIONALIDADES", 5)
  else if m.bachiller_periodo_academico == "SI" then ("BACHILLERES", 6)
  else ("GENERAL", 7)

/-- `CalculadorSegmento.ORDEN_SEGMENTOS` (lines 95-103): the seven
documented segment names in rank order. -/
def ORDEN_SEGMENTOS : List String :=
  ["CUOTAS", "VULNERABILIDAD", "MERITO_ACADEMICO", "RECONOCIMIENTOS",
   "PUEBLOS_NACIONALIDADES", "BACHILLERES", "GENERAL"]

/-- The initial marker bundle of `PoliticaAccionAfirmativa.__init__`
(lines 184-196): every eligibility marker 'NO', poblacion_general 'SI'. -/
def marcadoresIniciales : Marcadores :=
  { condicion_socioeconomica := "NO"
    ruralidad := "NO"
    discapacidad := "NO"
    pueblos_nacionalidades := "NO"
    victima_violencia := "NO"
    migrantes_retornados := "NO"
    merito_academico := "NO"
    vulnerabilidad_socioeconomica := "NO"
    bachiller_pueblos_nacionalidad := "NO"
    bachiller_periodo_academico := "NO"
    poblacion_general := "SI" }

/-- C4: if ANY of the six quota markers is set, `calcularSegmento` returns
(CUOTAS, 1) regardless of every other marker — in particular a bundle with
both rurality and socio-economic vulnerability set classifies as CUOTAS
with priority 1, not VULNERABILIDAD. -/
theorem cuotas_wins_first (m : Marcadores)
    (h : m.condicion_socioeconomica = "SI" ∨ m.ruralidad = "SI" ∨
         m.discapacidad = "SI" ∨ m.pueblos_nacionalidades = "SI" ∨
         m.victima_violencia = "SI" ∨ m.migrantes_retornados = "SI") :
    calcularSegmento m = ("CUOTAS", 1) := by
  have hc : tiene_cuotas m = true := by
    unfold tiene_cuotas
    rcases h with h | h | h | h | h | h <;> simp [h]
  simp [calcularSegmento, hc]

/-- Witness for C4: rurality and vulnerability both set yields CUOTAS. -/
theorem cuotas_wins_first_witness :
    calcularSegmento
      { marcadoresIniciales with
          ruralidad := "SI", vulnerabilidad_socioeconomica := "SI" }
      = ("CUOTAS", 1) :=
  cuotas_wins_first _ (Or.inr (Or.inl rfl))

lemma calcularSegmento_cases (m : Marcadores) :
    calcularSegmento m = ("CUOTAS", 1) ∨ calcularSegmento m = ("VULNERABILIDAD", 2) ∨
    calcularSegmento m = ("MERITO_ACADEMICO", 3) ∨
    calcularSegmento m = ("PUEBLOS_NACIONALIDADES", 5) ∨
    calcularSegmento m = ("BACHILLERES", 6) ∨
    calcularSegmento m = ("GENERAL", 7) := by
  unfold calcularSegmento
  repeat' split
  all_goals simp

/-- C5: `calcularSegmento` is total — for every marker bundle it returns a
pair whose segment is one of the seven documented names and whose priority
is that segment's documented rank (its 1-based position in
ORDEN_SEGMENTOS); the initial all-'NO' bundle classifies as (GENERAL, 7);
and RECONOCIMIENTOS (rank 4) is never returned. -/
theorem classify_total_ranked_general_default :
    (∀ m : Marcadores, (calcularSegmento m).1 ∈ ORDEN_SEGMENTOS ∧
      (calcularSegmento m).2 =
        ((ORDEN_SEGMENTOS.indexOf (calcularSegmento m).1 : Nat) : Int) + 1) ∧
    calcularSegmento marcadoresIniciales = ("GENERAL", 7) ∧
    (∀ m : Marcadores, (calcularSegmento m).1 ≠ "RECONOCIMIENTOS") := by
  refine ⟨?_, ?_, ?_⟩
  · intro m
    rcases calcularSegmento_cases m with h | h | h | h | h | h <;>
      rw [h] <;> exact ⟨by decide, by decide⟩
  · decide
  · intro m
    rcases calcularSegmento_cases m with h | h | h | h | h | h <;>
      rw [h] <;> decide

/-! ## Seat registry and eligibility — ServicioCupos, ValidadorAsignacion
(Asignacion.py lines 63-132).  The dict `_cupos_por_carrera : Dict[int, int]`
is modelled as `Int → Option Int` (none = key absent). -/

def CuposPorCarrera : Type := Int → Option Int

/-- Python `dict.get(k, 0)`. -/
def cuposGet (d : CuposPorCarrera) (carrera_id : Int) : Int :=
  (d carrera_id).getD 0

/-- Python `dict[k] = v`. -/
def cuposSet (d : CuposPorCarrera) (carrera_id v : Int) : CuposPorCarrera :=
  fun k => if k = carrera_id then some v else d k

/-- The fresh registry of `ServicioCupos.__init__`: an empty dict. -/
def cuposVacios : CuposPorCarrera := fun _ => none

/-- `ServicioCupos.configurar_cupos` (lines 72-75). -/
def configurar_cupos (d : CuposPorCarrera) (carrera_id cupos : Int) : CuposPorCarrera :=
  cuposSet d carrera_id cupos

/-- `ServicioCupos.obtener_cupos_disponibles` (lines 77-79). -/
def obtener_cupos_disponibles (d : CuposPorCarrera) (carrera_id : Int) : Int :=
  cuposGet d carrera_id

/-- `ServicioCupos.reducir_cupo` (lines 81-86): check-then-decrement,
returning the new registry and whether the reservation succeeded. -/
def reducir_cupo (d : CuposPorCarrera) (carrera_id : Int) : CuposPorCarrera × Bool :=
  if cuposGet d carrera_id > 0 then
    (cuposSet d carrera_id (cuposGet d carrera_id - 1), true)
  else (d, false)

/-- `ServicioCupos.incrementar_cupo` (lines 88-91): unconditional
increment, no cap. -/
def incrementar_cupo (d : CuposPorCarrera) (carrera_id : Int) : CuposPorCarrera :=
  let cupos_actuales := cuposGet d carrera_id
  cuposSet d carrera_id (cupos_actuales + 1)

def PUNTAJE_MINIMO_ASIGNACION : ℚ := 600

/-- `ValidadorAsignacion.validar_cupos_disponibles` (lines 107-112). -/
def validar_cupos_disponibles (d : CuposPorCarrera) (carrera_id : Int) :
    Bool × Option String :=
  let cupos := obtener_cupos_disponibles d carrera_id
  if cupos ≤ 0 then (false, some "Sin cupos disponibles") else (true, none)

/-- `ValidadorAsignacion.validar_puntaje_minimo` (lines 114-118). -/
def validar_puntaje_minimo (puntaje : ℚ) : Bool × Option String :=
  if puntaje < PUNTAJE_MINIMO_ASIGNACION then
    (false, some "Puntaje insuficiente (mínimo 600)")
  else (true, none)

/-- `ValidadorAsignacion.validar_todos_requisitos` (lines 120-132): seats
are checked FIRST, then the minimum score. -/
def validar_todos_requisitos (d : CuposPorCarrera) (carrera_id : Int)
    (puntaje : ℚ) : Bool × Option String :=
  let vc := validar_cupos_disponibles d carrera_id
  if !vc.1 then (false, vc.2)
  else
    let vp := validar_puntaje_minimo puntaje
    if !vp.1 then (false, vp.2)
    else (true, none)

/-- C6 counterexample: for a program configured with 0 seats and a score
below the minimum, `validar_todos_requisitos` reports the no-seats reason,
not the insufficient-score reason the claim requires for every score
below 600. -/
theorem eligibility_reason_counterexample :
    validar_todos_requisitos (configurar_cupos cuposVacios 101 0) 101 (599.99 : ℚ)
      = (false, some "Sin cupos disponibles") ∧
    (some "Sin cupos disponibles" : Option String) ≠
      some "Puntaje insuficiente (mínimo 600)" := by
  constructor
  · simp [validar_todos_requisitos, validar_cupos_disponibles,
      obtener_cupos_disponibles, cuposGet, configurar_cupos, cuposSet, cuposVacios]
  · simp

/-- C6 amended: `validar_todos_requisitos` checks seats FIRST — when the
remaining seat count is ≤ 0 it fails with the no-seats reason regardless
of the score; when seats are available it fails with the
insufficient-score reason exactly when score < 600 (threshold inclusive:
600 itself passes) and succeeds otherwise. -/
theorem eligibility_checks_seats_first (d : CuposPorCarrera) (c : Int) (score : ℚ) :
    (obtener_cupos_disponibles d c ≤ 0 →
      validar_todos_requisitos d c score = (false, some "Sin cupos disponibles")) ∧
    (0 < obtener_cupos_disponibles d c → score < 600 →
      validar_todos_requisitos d c score =
        (false, some "Puntaje insuficiente (mínimo 600)")) ∧
    (0 < obtener_cupos_disponibles d c → 600 ≤ score →
      validar_todos_requisitos d c score = (true, none)) := by
  refine ⟨?_, ?_, ?_⟩
  · intro h
    simp [validar_todos_requisitos, validar_cupos_disponibles, h]
  · intro h hs
    have h1 : ¬(obtener_cupos_disponibles d c ≤ 0) := by omega
    have h2 : score < PUNTAJE_MINIMO_ASIGNACION := by
      unfold PUNTAJE_MINIMO_ASIGNACION; exact hs
    simp [validar_todos_requisitos, validar_cupos_disponibles,
      validar_puntaje_minimo, h1, h2]
  · intro h hs
    have h1 : ¬(obtener_cupos_disponibles d c ≤ 0) := by omega
    have h2 : ¬(score < PUNTAJE_MINIMO_ASIGNACION) := by
      unfold PUNTAJE_MINIMO_ASIGNACION; linarith
    simp [validar_todos_requisitos, validar_cupos_disponibles,
      validar_puntaje_minimo, h1, h2]

/-- Witness for the amended C6: a program with 3 seats, at the boundary
scores 599.99 and 600. -/
theorem eligibility_checks_seats_first_witness :
    validar_todos_requisitos (configurar_cupos cuposVacios 101 3) 101 (599.99 : ℚ)
      = (false, some "Puntaje insuficiente (mínimo 600)") ∧
    validar_todos_requisitos (configurar_cupos cuposVacios 101 3) 101 600
      = (true, none) :=
  ⟨(eligibility_checks_seats_first (configurar_cupos cuposVacios 101 3) 101
      (599.99 : ℚ)).2.1
      (by simp [obtener_cupos_disponibles, cuposGet, configurar_cupos, cuposSet])
      (by norm_num),
   (eligibility_checks_seats_first (configurar_cupos cuposVacios 101 3) 101 600).2.2
      (by simp [obtener_cupos_disponibles, cuposGet, configurar_cupos, cuposSet])
      (by norm_num)⟩

/-- C7: `reducir_cupo` decrements the counter for the program by exactly
one iff it is currently positive, its boolean result reports exactly
whether the decrement happened, other programs are never touched, and on
failure the whole registry is returned unchanged. -/
theorem reserve_decrements_iff_available (d : CuposPorCarrera) (c : Int) :
    ((reducir_cupo d c).2 = true ↔ 0 < obtener_cupos_disponibles d c) ∧
    ((reducir_cupo d c).2 = true →
      obtener_cupos_disponibles (reducir_cupo d c).1 c =
        obtener_cupos_disponibles d c - 1 ∧
      ∀ c2, c2 ≠ c → (reducir_cupo d c).1 c2 = d c2) ∧
    ((reducir_cupo d c).2 = false → (reducir_cupo d c).1 = d) := by
  by_cases h : 0 < (d c).getD 0
  · refine ⟨?_, ?_, ?_⟩
    · simp [reducir_cupo, cuposGet, h, obtener_cupos_disponibles]
    · intro _
      constructor
      · simp [reducir_cupo, h, obtener_cupos_disponibles, cuposGet, cuposSet]
      · intro c2 hc2
        simp [reducir_cupo, cuposGet, h, cuposSet, hc2]
    · intro hfalse
      simp [reducir_cupo, cuposGet, h] at hfalse
  · refine ⟨?_, ?_, ?_⟩
    · simp [reducir_cupo, cuposGet, h, obtener_cupos_disponibles]
    · intro htrue
      simp [reducir_cupo, cuposGet, h] at htrue
    · intro _
      simp [reducir_cupo, cuposGet, h]

/-- Witness for C7: one configured seat is successfully reserved. -/
theorem reserve_decrements_iff_available_witness :
    (reducir_cupo (configurar_cupos cuposVacios 101 1) 101).2 = true :=
  (reserve_decrements_iff_available (configurar_cupos cuposVacios 101 1) 101).1.mpr
    (by simp [obtener_cupos_disponibles, cuposGet, configurar_cupos, cuposSet])

/-- C8 counterexample: on a fresh registry (count 0 for program 101) a
failed `reducir_cupo` followed by `incrementar_cupo` leaves count 1, not
the pre-reservation count 0 — the round-trip does not restore the count
when the reservation failed. -/
theorem roundtrip_counterexample :
    obtener_cupos_disponibles cuposVacios 101 = 0 ∧
    obtener_cupos_disponibles
      (incrementar_cupo (reducir_cupo cuposVacios 101).1 101) 101 = 1 ∧
    (1 : Int) ≠ 0 := by
  refine ⟨?_, ?_, by norm_num⟩ <;>
    simp [obtener_cupos_disponibles, incrementar_cupo, reducir_cupo,
      cuposGet, cuposSet, cuposVacios]

/-- C8 amended: when the reservation succeeds (count > 0), reserve
followed by release restores the whole registry — in particular the
pre-reservation count — exactly; and `incrementar_cupo` always increments
the count by one, with no failure mode and no upper cap.  When the
reservation failed, the release still increments, leaving count + 1. -/
theorem roundtrip_restores_on_success (d : CuposPorCarrera) (c : Int) :
    (0 < obtener_cupos_disponibles d c →
      incrementar_cupo (reducir_cupo d c).1 c = d) ∧
    obtener_cupos_disponibles (incrementar_cupo d c) c =
      obtener_cupos_disponibles d c + 1 := by
  constructor
  · intro h
    have hg : 0 < (d c).getD 0 := h
    obtain ⟨v, hv⟩ : ∃ v, d c = some v := by
      cases hdc : d c with
      | none => rw [hdc] at hg; simp at hg
      | some v => exact ⟨v, rfl⟩
    funext k
    by_cases hk : k = c
    · subst hk
      have hg2 : 0 < v := by rw [hv] at hg; simpa using hg
      simp [incrementar_cupo, reducir_cupo, cuposGet, cuposSet, hv, hg2]
    · simp [incrementar_cupo, reducir_cupo, cuposGet, cuposSet, hg, hk]
  · simp [obtener_cupos_disponibles, incrementar_cupo, cuposGet, cuposSet]

/-- Witness for the amended C8: a program with 2 seats round-trips back
to its exact pre-reservation registry. -/
theorem roundtrip_restores_on_success_witness :
    incrementar_cupo (reducir_cupo (configurar_cupos cuposVacios 101 2) 101).1 101
      = configurar_cupos cuposVacios 101 2 :=
  (roundtrip_restores_on_success (configurar_cupos cuposVacios 101 2) 101).1
    (by simp [obtener_cupos_disponibles, cuposGet, configurar_cupos, cuposSet])

/-- C10: a program id never configured (absent from the dict) behaves
exactly like a zero-seat program: the seat query returns 0, `reducir_cupo`
fails and leaves the registry unchanged (the key is not added), and
`validar_todos_requisitos` fails with the no-seats reason for every
score. -/
theorem unconfigured_program_acts_as_zero (d : CuposPorCarrera) (c : Int)
    (score : ℚ) (h : d c = none) :
    obtener_cupos_disponibles d c = 0 ∧
    reducir_cupo d c = (d, false) ∧
    validar_todos_requisitos d c score = (false, some "Sin cupos disponibles") := by
  refine ⟨?_, ?_, ?_⟩
  · simp [obtener_cupos_disponibles, cuposGet, h]
  · simp [reducir_cupo, cuposGet, h]
  · simp [validar_todos_requisitos, validar_cupos_disponibles,
      obtener_cupos_disponibles, cuposGet, h]

/-- Witness for C10 at the empty registry, program 999, score 850. -/
theorem unconfigured_program_acts_as_zero_witness :
    obtener_cupos_disponibles cuposVacios 999 = 0 ∧
    reducir_cupo cuposVacios 999 = (cuposVacios, false) ∧
    validar_todos_requisitos cuposVacios 999 850 =
      (false, some "Sin cupos disponibles") :=
  unconfigured_program_acts_as_zero cuposVacios 999 850 rfl

/-! ## Concurrency model for reserveSeat.

`ServicioCupos` has no lock: `reducir_cupo` is a bare read-check (line 83)
followed by a decrement (line 84).  A thread running it is modelled with a
program counter: `start` (about to run the check), `decr` (passed the
check, about to decrement), `done r` (returned r).  An interleaving is a
schedule: a list of thread indices, each performing one atomic step. -/

inductive ThreadPC where
  | start : ThreadPC
  | decr : ThreadPC
  | done : Bool → ThreadPC
deriving DecidableEq

/-- One atomic step of a thread executing `reducir_cupo carrera_id`. -/
def threadStep (carrera_id : Int) (d : CuposPorCarrera) :
    ThreadPC → CuposPorCarrera × ThreadPC
  | ThreadPC.start =>
      if cuposGet d carrera_id > 0 then (d, ThreadPC.decr)
      else (d, ThreadPC.done false)
  | ThreadPC.decr =>
      (cuposSet d carrera_id (cuposGet d carrera_id - 1), ThreadPC.done true)
  | ThreadPC.done r => (d, ThreadPC.done r)

/-- Run one step of the thread at index `i` of the pool. -/
def schedStep (carrera_id : Int) (s : CuposPorCarrera × List ThreadPC)
    (i : Nat) : CuposPorCarrera × List ThreadPC :=
  match s.2.get? i with
  | none => s
  | some pc =>
      let r := threadStep carrera_id s.1 pc
      (r.1, s.2.set i r.2)

/-- Run a whole schedule (list of thread indices). -/
def runSched (carrera_id : Int) (s : CuposPorCarrera × List ThreadPC)
    (sched : List Nat) : CuposPorCarrera × List ThreadPC :=
  sched.foldl (schedStep carrera_id) s

/-- N sequential (serialized) `reducir_cupo` calls; returns the final
registry and how many calls returned true. -/
def reservasSecuenciales (carrera_id : Int) : Nat → CuposPorCarrera →
    CuposPorCarrera × Nat
  | 0, d => (d, 0)
  | n+1, d =>
      let r := reducir_cupo d carrera_id
      let rest := reservasSecuenciales carrera_id n r.1
      (rest.1, (if r.2 then 1 else 0) + rest.2)

/-- C9 counterexample: with ONE seat configured for program 101 and two
threads interleaved check-check-decrement-decrement, BOTH `reducir_cupo`
callers return true and the count ends at -1 — the read-check-then-
decrement sequence is not protected by any lock. -/
theorem race_both_succeed_with_one_seat :
    (runSched 101 (configurar_cupos cuposVacios 101 1,
        [ThreadPC.start, ThreadPC.start]) [0, 1, 0, 1]).2 =
      [ThreadPC.done true, ThreadPC.done true] ∧
    obtener_cupos_disponibles
      (runSched 101 (configurar_cupos cuposVacios 101 1,
        [ThreadPC.start, ThreadPC.start]) [0, 1, 0, 1]).1 101 = -1 ∧
    obtener_cupos_disponibles (configurar_cupos cuposVacios 101 1) 101 = 1 := by
  refine ⟨?_, ?_, ?_⟩ <;>
    simp [runSched, schedStep, threadStep, obtener_cupos_disponibles,
      configurar_cupos, cuposGet, cuposSet, cuposVacios]

lemma reservasSecuenciales_count (carrera_id : Int) (n : Nat) :
    ∀ (d : CuposPorCarrera) (K : Nat),
      obtener_cupos_disponibles d carrera_id = (K : Int) →
      (reservasSecuenciales carrera_id n d).2 = min n K ∧
      obtener_cupos_disponibles (reservasSecuenciales carrera_id n d).1 carrera_id
        = ((K - min n K : Nat) : Int) := by
  induction n with
  | zero => intro d K h; simpa [reservasSecuenciales] using h
  | succ n ih =>
    intro d K h
    have hget : (d carrera_id).getD 0 = (K : Int) := h
    cases K with
    | zero =>
      have hcond : ¬(cuposGet d carrera_id > 0) := by
        unfold cuposGet; rw [hget]; norm_num
      have hred : reducir_cupo d carrera_id = (d, false) := by
        simp [reducir_cupo, hcond]
      have hrec := ih d 0 h
      simp [reservasSecuenciales, hred, hrec.1, hrec.2]
    | succ k =>
      have hcond : cuposGet d carrera_id > 0 := by
        unfold cuposGet; rw [hget]; exact_mod_cast Nat.succ_pos k
      have hred : reducir_cupo d carrera_id =
          (cuposSet d carrera_id (cuposGet d carrera_id - 1), true) := by
        simp [reducir_cupo, hcond]
      have hnew : obtener_cupos_disponibles
          (cuposSet d carrera_id (cuposGet d carrera_id - 1)) carrera_id
          = (k : Int) := by
        simp [obtener_cupos_disponibles, cuposGet, cuposSet, hget]
      have hrec := ih (cuposSet d carrera_id (cuposGet d carrera_id - 1)) k hnew
      refine ⟨?_, ?_⟩
      · simp only [reservasSecuenciales, hred]
        simp only [hrec.1]
        simp only [if_true]
        omega
      · simp only [reservasSecuenciales, hred]
        rw [hrec.2]
        congr 1
        omega

/-- C9 amended: the source has NO lock around the check-then-decrement,
so the race guarantee fails under interleaving (see the counterexample);
what does hold is the serialized version: N sequential `reducir_cupo`
calls against a program holding exactly K seats (K < N) yield exactly K
successes and a final remaining count of 0. -/
theorem sequential_reservations_exactly_k (carrera_id : Int)
    (d : CuposPorCarrera) (n K : Nat)
    (h : obtener_cupos_disponibles d carrera_id = (K : Int)) (hKn : K < n) :
    (reservasSecuenciales carrera_id n d).2 = K ∧
    obtener_cupos_disponibles (reservasSecuenciales carrera_id n d).1 carrera_id
      = 0 := by
  have hmain := reservasSecuenciales_count carrera_id n d K h
  have hmin : min n K = K := by omega
  refine ⟨by rw [hmain.1, hmin], ?_⟩
  rw [hmain.2, hmin]
  simp

/-- Witness for the amended C9: 3 sequential calls against 1 seat give
exactly 1 success and 0 remaining seats. -/
theorem sequential_reservations_exactly_k_witness :
    (reservasSecuenciales 101 3 (configurar_cupos cuposVacios 101 1)).2 = 1 ∧
    obtener_cupos_disponibles
      (reservasSecuenciales 101 3 (configurar_cupos cuposVacios 101 1)).1 101
      = 0 :=
  sequential_reservations_exactly_k 101 (configurar_cupos cuposVacios 101 1) 3 1
    (by simp [obtener_cupos_disponibles, cuposGet, configurar_cupos, cuposSet])
    (by norm_num)
